import Mathlib

/-
Verification of the subscription CRUD service (main.go, models.go).

The service is a thin layer over the gin HTTP router and the gorm ORM.
The embedding below models:
  - the Subscription row type (models.go);
  - gin JSON binding with the `binding:"required"` validator tags
    (a string field is required-valid when non-empty, an int field when
    non-zero; binding into a pre-populated struct keeps the fields the
    body omits);
  - the gorm calls the handlers make, with the semantics gorm gives them:
      db.First(&s, "id = ?", id)      : first row with that id, or not-found
      db.Create(&s)                   : insert, error on primary-key clash
      db.Save(&s)                     : zero primary key means Create;
                                        otherwise UPDATE all fields, and
                                        Create when no row was affected
      db.Delete(&Subscription, id)    : a string that strconv.Atoi accepts
                                        becomes a primary-key equality,
                                        anything else becomes a raw SQL
                                        condition (an error at the database);
                                        zero affected rows is NOT an error
      db.Find(&ss)                    : all rows
      Select SUM(col) with a column name absent from the table fails;
  - the six handlers, each a function from the stored table and the
    request data to the new table and the HTTP response;
  - main and initDB as a startup function over an abstract environment
    (godotenv.Load result, os.Getenv, gorm.Open result, AutoMigrate result).
-/

namespace SubSvc

/-- Subscription row, translated from models.go. Price is the Go int. -/
structure Subscription where
  ID : String
  ServiceName : String
  Price : Int
  UserID : String
  StartDate : String
  EndDate : String
deriving DecidableEq, Repr

/-- Zero value of the Go struct: binding a create body starts from this. -/
def zeroSubscription : Subscription :=
  ⟨"", "", 0, "", "", ""⟩

/-- The stored table, one row per record. -/
abbrev Store := List Subscription

/-- A well-formed JSON request body: each field present or absent. -/
structure SubscriptionBody where
  ID : Option String
  ServiceName : Option String
  Price : Option Int
  UserID : Option String
  StartDate : Option String
  EndDate : Option String
deriving DecidableEq, Repr

/-- encoding/json unmarshalling into a pre-populated struct: a field named
in the body overwrites, a field absent from the body is kept. The ID field
has no json tag, so a body key ID (any casing) sets it. -/
def bindInto (init : Subscription) (b : SubscriptionBody) : Subscription :=
  ⟨b.ID.getD init.ID, b.ServiceName.getD init.ServiceName, b.Price.getD init.Price,
   b.UserID.getD init.UserID, b.StartDate.getD init.StartDate, b.EndDate.getD init.EndDate⟩

/-- The validator behind the binding tags of models.go: required on a
string demands a non-empty value, required on the int Price demands a
non-zero value; ID and EndDate carry no required tag. -/
def requiredValid (r : Subscription) : Bool :=
  r.ServiceName != "" && r.Price != 0 && r.UserID != "" && r.StartDate != ""

/-- gin c.ShouldBindJSON: unmarshal the body over init, then run the
required validators on the resulting struct. -/
def shouldBindJSON (init : Subscription) (b : SubscriptionBody) : Except String Subscription :=
  if requiredValid (bindInto init b) then Except.ok (bindInto init b)
  else Except.error "validation failed for a required field"

/-- gorm db.First with the condition id = ?, as the handlers call it:
the matching row, or not-found. -/
def dbFirst (s : Store) (id : String) : Option Subscription :=
  s.find? (fun r => r.ID == id)

/-- gorm db.Create: insert the row; a primary-key clash leaves the table
unchanged and reports an error (the Bool). -/
def dbCreate (s : Store) (r : Subscription) : Store × Bool :=
  if s.any (fun x => x.ID == r.ID) then (s, true) else (s ++ [r], false)

/-- gorm db.Save: a zero primary key goes to Create; otherwise UPDATE all
fields of the rows with this key, and when none was affected, Create. -/
def dbSave (s : Store) (r : Subscription) : Store :=
  if r.ID == "" then (dbCreate s r).1
  else if s.any (fun x => x.ID == r.ID) then
    s.map (fun x => if x.ID == r.ID then r else x)
  else s ++ [r]

/-- Go strconv.Atoi acceptance: an optional sign, then at least one
decimal digit, and the value fits a 64-bit int. -/
def goAtoiOk (s : String) : Bool :=
  match s.toList with
  | [] => false
  | c :: rest =>
    let neg : Bool := c == '-'
    let digits : List Char := if c == '-' || c == '+' then rest else c :: rest
    let val : Nat := digits.foldl (fun a d => a * 10 + (d.toNat - 48)) 0
    (!digits.isEmpty) && digits.all Char.isDigit &&
      (if neg then decide (val ≤ 2 ^ 63) else decide (val ≤ 2 ^ 63 - 1))

/-- gorm db.Delete(&Subscription, id) for a string id. When strconv.Atoi
accepts the id, gorm builds the primary-key condition id = ? and deleting
zero rows is no error; otherwise the id is passed through as a raw SQL
condition, which the database rejects, so the table is unchanged and an
error is reported (the empty id likewise errors, as a missing WHERE). -/
def dbDeleteById (s : Store) (id : String) : Store × Bool :=
  if goAtoiOk id then (s.filter (fun x => x.ID != id), false) else (s, true)

/-- gorm db.Find: every stored row. -/
def dbFind (s : Store) : List Subscription := s

/-- The numeric columns of the subscriptions table by SQL name. The table
has the columns id, service_name, price, user_id, start_date, end_date;
price is the only numeric one. -/
def numericColumn : String → Option (Subscription → Int)
  | "price" => some Subscription.Price
  | _ => none

/-- Select SUM(col) over the rows matching user_id = ? AND service_name = ?.
Naming a column the table does not have makes the query itself fail. -/
def selectSum (s : Store) (userID serviceName col : String) : Except String Int :=
  match numericColumn col with
  | none => Except.error ("column " ++ col ++ " does not exist")
  | some f =>
    Except.ok (((s.filter (fun r => r.UserID == userID && r.ServiceName == serviceName)).map f).sum)

/-- An HTTP response as a handler produces it: a status code and the JSON
payload written with it. -/
inductive Response where
  | record : Nat → Subscription → Response
  | records : Nat → List Subscription → Response
  | total : Nat → Int → Response
  | fail : Nat → String → Response
  | noContent : Nat → Response
deriving DecidableEq, Repr

/-- Handler createSubscription: bind and validate the body (400 on
failure), then db.Create with the error discarded, then 201 with the
bound record. -/
def createSubscription (s : Store) (b : SubscriptionBody) : Store × Response :=
  match shouldBindJSON zeroSubscription b with
  | Except.error m => (s, Response.fail 400 m)
  | Except.ok r => ((dbCreate s r).1, Response.record 201 r)

/-- Handler getSubscriptions: db.Find, then 200 with every row. -/
def getSubscriptions (s : Store) : Store × Response :=
  (s, Response.records 200 (dbFind s))

/-- Handler getSubscription: db.First by the path id, 404 when absent. -/
def getSubscription (s : Store) (id : String) : Store × Response :=
  match dbFirst s id with
  | none => (s, Response.fail 404 "Subscription not found!")
  | some r => (s, Response.record 200 r)

/-- Handler updateSubscription: db.First by the path id (404 when absent),
bind the body over the fetched row (400 on validation failure), db.Save
the merged row with the error discarded, then 200 with the merged row. -/
def updateSubscription (s : Store) (id : String) (b : SubscriptionBody) : Store × Response :=
  match dbFirst s id with
  | none => (s, Response.fail 404 "Subscription not found!")
  | some r0 =>
    match shouldBindJSON r0 b with
    | Except.error m => (s, Response.fail 400 m)
    | Except.ok r => (dbSave s r, Response.record 200 r)

/-- Handler deleteSubscription: db.Delete by the path id; 404 exactly when
the delete call reports an error, 204 otherwise. -/
def deleteSubscription (s : Store) (id : String) : Store × Response :=
  let res := dbDeleteById s id
  if res.2 then (s, Response.fail 404 "Subscription not found!")
  else (res.1, Response.noContent 204)

/-- Handler getTotalCost: run Select SUM(cost) — the column name the code
writes — filtered by the two query parameters; 500 when the query fails,
200 with the sum otherwise. -/
def getTotalCost (s : Store) (userID serviceName : String) : Store × Response :=
  match selectSum s userID serviceName "cost" with
  | Except.error _ => (s, Response.fail 500 "Internal server error")
  | Except.ok t => (s, Response.total 200 t)

/-- Modelled from the spec: the intended total, the sum of price over the
records whose user_id and service_name both equal the query parameters
under case-sensitive equality, 0 when none match. -/
def totalCostSpec (s : Store) (userID serviceName : String) : Int :=
  ((s.filter (fun r => r.UserID == userID && r.ServiceName == serviceName)).map
    Subscription.Price).sum

/-- The process environment main runs in: the godotenv.Load outcome, the
environment variables, the gorm.Open outcome per connection string, and
the AutoMigrate outcome. -/
structure StartupEnv where
  dotenvLoad : Except String Unit
  getenv : String → String
  gormOpen : String → Except String Unit
  autoMigrate : Except String Unit

/-- What main reaches: a log.Fatalf (process exit) or the router serving. -/
inductive MainResult where
  | fatal : String → MainResult
  | serving : MainResult
deriving DecidableEq, Repr

/-- main and initDB: godotenv.Load (Fatalf on error), gorm.Open on
os.Getenv DATABASE_URL (Fatalf on error), AutoMigrate (Fatalf on error),
then the router runs. -/
def runMain (env : StartupEnv) : MainResult :=
  match env.dotenvLoad with
  | Except.error e => MainResult.fatal ("Error loading .env file: " ++ e)
  | Except.ok _ =>
    match env.gormOpen (env.getenv "DATABASE_URL") with
    | Except.error e => MainResult.fatal ("Error connecting to the database: " ++ e)
    | Except.ok _ =>
      match env.autoMigrate with
      | Except.error e => MainResult.fatal ("Error migrating database: " ++ e)
      | Except.ok _ => MainResult.serving

/-- Uniqueness of the primary key across the stored table. -/
def idsUnique (s : Store) : Prop :=
  (s.map Subscription.ID).Nodup

instance (s : Store) : Decidable (idsUnique s) :=
  List.nodupDecidable (s.map Subscription.ID)

/-- A lookup misses every element of a table whose any-test is false. -/
theorem dbFirst_eq_none_of_any_eq_false {s : Store} {id : String}
    (h : s.any (fun x => x.ID == id) = false) : dbFirst s id = none := by
  unfold dbFirst
  rw [List.find?_eq_none]
  intro x hx
  simp only [List.any_eq_false] at h
  exact h x hx

/-- Lookup in the empty table. -/
theorem dbFirst_nil (pid : String) : dbFirst [] pid = none := rfl

/-- Lookup unfolded one row at a time. -/
theorem dbFirst_cons (a : Subscription) (t : Store) (pid : String) :
    dbFirst (a :: t) pid = if a.ID == pid then some a else dbFirst t pid := by
  unfold dbFirst
  simp only [List.find?]
  cases ha : (a.ID == pid) <;> simp [ha]

/-- Appending a row with a different id does not change a lookup. -/
theorem dbFirst_append_of_ne {s : Store} {r : Subscription} {pid : String}
    (h : r.ID ≠ pid) : dbFirst (s ++ [r]) pid = dbFirst s pid := by
  have hb : (r.ID == pid) = false := by simpa using h
  induction s with
  | nil => simp [dbFirst_cons, dbFirst_nil, hb]
  | cons a t ih => simp only [List.cons_append, dbFirst_cons, ih]

/-- Appending a row finds it when the table had no row with its id. -/
theorem dbFirst_append_self {s : Store} {r : Subscription}
    (h : dbFirst s r.ID = none) : dbFirst (s ++ [r]) r.ID = some r := by
  induction s with
  | nil => simp [dbFirst_cons, dbFirst_nil]
  | cons a t ih =>
    rw [dbFirst_cons] at h
    rw [List.cons_append, dbFirst_cons]
    cases ha : (a.ID == r.ID) with
    | true => rw [ha] at h; simp at h
    | false =>
      rw [ha] at h
      simp only [Bool.false_eq_true, if_false] at h ⊢
      exact ih h

/-- Replacing the rows keyed by the id of r finds r afterwards, as soon as
some row had that id. -/
theorem dbFirst_replace_self {s : Store} {r : Subscription}
    (h : s.any (fun x => x.ID == r.ID) = true) :
    dbFirst (s.map (fun x => if x.ID == r.ID then r else x)) r.ID = some r := by
  induction s with
  | nil => simp at h
  | cons a t ih =>
    rw [List.map_cons, dbFirst_cons]
    cases ha : (a.ID == r.ID) with
    | true => simp [ha]
    | false =>
      simp only [List.any_cons, ha, Bool.false_or] at h
      simp only [ha, Bool.false_eq_true, if_false]
      exact ih h

/-- Replacing the rows keyed by the id of r leaves a lookup by a different
id unchanged. -/
theorem dbFirst_replace_other {s : Store} {r : Subscription} {pid : String}
    (h : r.ID ≠ pid) :
    dbFirst (s.map (fun x => if x.ID == r.ID then r else x)) pid = dbFirst s pid := by
  have hbne : (r.ID == pid) = false := by simpa using h
  induction s with
  | nil => rfl
  | cons a t ih =>
    rw [List.map_cons, dbFirst_cons, dbFirst_cons, ih]
    cases ha : (a.ID == r.ID) with
    | true =>
      have haid : a.ID = r.ID := by simpa using ha
      simp [ha, hbne, haid]
    | false => simp [ha]

/-- After db.Save of r, a lookup by the id of r yields r, unless that id
is empty while the table already holds a row with the empty id (then the
Create path fails silently). -/
theorem dbFirst_dbSave_self {s : Store} {r : Subscription}
    (h : r.ID = "" → dbFirst s "" = none) :
    dbFirst (dbSave s r) r.ID = some r := by
  unfold dbSave
  cases hid : (r.ID == "") with
  | true =>
    have hid' : r.ID = "" := by simpa using hid
    have hnone : dbFirst s r.ID = none := by rw [hid']; exact h hid'
    have hany : s.any (fun x => x.ID == r.ID) = false := by
      cases hA : s.any (fun x => x.ID == r.ID) with
      | false => rfl
      | true =>
        exfalso
        rcases List.any_eq_true.mp hA with ⟨x, hx, hxid⟩
        unfold dbFirst at hnone
        rw [List.find?_eq_none] at hnone
        exact hnone x hx hxid
    simp only [hid, if_true]
    unfold dbCreate
    rw [hany]
    simpa using dbFirst_append_self hnone
  | false =>
    simp only [hid, Bool.false_eq_true, if_false]
    cases hany : s.any (fun x => x.ID == r.ID) with
    | true => simpa [hany] using dbFirst_replace_self hany
    | false =>
      have hnone : dbFirst s r.ID = none := dbFirst_eq_none_of_any_eq_false hany
      simpa [hany] using dbFirst_append_self hnone

/-- After db.Save of r, a lookup by an id other than the id of r is
unchanged. -/
theorem dbFirst_dbSave_other {s : Store} {r : Subscription} {pid : String}
    (h : r.ID ≠ pid) : dbFirst (dbSave s r) pid = dbFirst s pid := by
  unfold dbSave
  cases hid : (r.ID == "") with
  | true =>
    simp only [hid, if_true]
    unfold dbCreate
    cases hany : s.any (fun x => x.ID == r.ID) with
    | true => simp
    | false => simpa using dbFirst_append_of_ne h
  | false =>
    simp only [hid, Bool.false_eq_true, if_false]
    cases hany : s.any (fun x => x.ID == r.ID) with
    | true => simpa [hany] using dbFirst_replace_other h
    | false => simpa [hany] using dbFirst_append_of_ne h

/-- Replacing the rows keyed by the id of r does not change the id column. -/
theorem ids_replace (s : Store) (r : Subscription) :
    (s.map (fun x => if x.ID == r.ID then r else x)).map Subscription.ID
      = s.map Subscription.ID := by
  induction s with
  | nil => rfl
  | cons a t ih =>
    simp only [List.map_cons]
    rw [ih]
    cases ha : (a.ID == r.ID) with
    | true =>
      have haid : a.ID = r.ID := by simpa using ha
      simp [ha, haid]
    | false => simp [ha]

/-- db.Create keeps the id column duplicate-free. -/
theorem idsUnique_dbCreate {s : Store} (r : Subscription)
    (h : idsUnique s) : idsUnique (dbCreate s r).1 := by
  unfold dbCreate
  cases hany : s.any (fun x => x.ID == r.ID) with
  | true => simpa using h
  | false =>
    have hnotin : r.ID ∉ s.map Subscription.ID := by
      intro hmem
      rcases List.mem_map.mp hmem with ⟨x, hx, hxid⟩
      have : s.any (fun x => x.ID == r.ID) = true :=
        List.any_eq_true.mpr ⟨x, hx, by simp [hxid]⟩
      rw [this] at hany
      exact Bool.true_eq_false.mp hany
    unfold idsUnique at h ⊢
    simp only [Bool.false_eq_true, if_false, List.map_append, List.map_cons, List.map_nil]
    exact List.Nodup.append h (List.nodup_singleton r.ID)
      (List.disjoint_singleton.mpr hnotin)

/-- db.Save keeps the id column duplicate-free. -/
theorem idsUnique_dbSave {s : Store} (r : Subscription)
    (h : idsUnique s) : idsUnique (dbSave s r) := by
  unfold dbSave
  cases hid : (r.ID == "") with
  | true => simpa using idsUnique_dbCreate r h
  | false =>
    cases hany : s.any (fun x => x.ID == r.ID) with
    | true =>
      simp only [hid, Bool.false_eq_true, if_false, hany, if_true]
      unfold idsUnique at h ⊢
      rw [ids_replace]
      exact h
    | false =>
      have h' := idsUnique_dbCreate r h
      unfold dbCreate at h'
      rw [hany] at h'
      simpa [hid, hany] using h'

/-- Filtering keeps the id column duplicate-free. -/
theorem idsUnique_filter {s : Store} (p : Subscription → Bool)
    (h : idsUnique s) : idsUnique (s.filter p) := by
  unfold idsUnique at h ⊢
  exact h.sublist (List.Sublist.map Subscription.ID (List.filter_sublist s))

/-- Claim C1: the total-cost request should return the sum of price over
the records matching both query parameters, 0 with no matches, and 500
only when the underlying query fails. The code instead selects SUM(cost),
a column the subscriptions table does not have, so the query always fails
and the handler answers 500 for every table and every parameter pair; on
the two-record example of the spec the intended total is 30, yet the
handler answers 500. -/
theorem getTotalCost_always_internal_error :
    (∀ (s : Store) (userID serviceName : String),
      (getTotalCost s userID serviceName).2 = Response.fail 500 "Internal server error")
    ∧ getTotalCost
        [⟨"s1", "Netflix", 15, "u1", "2024-01-01", ""⟩,
         ⟨"s2", "Netflix", 15, "u1", "2024-02-01", ""⟩] "u1" "Netflix"
      = ([⟨"s1", "Netflix", 15, "u1", "2024-01-01", ""⟩,
          ⟨"s2", "Netflix", 15, "u1", "2024-02-01", ""⟩],
         Response.fail 500 "Internal server error")
    ∧ totalCostSpec
        [⟨"s1", "Netflix", 15, "u1", "2024-01-01", ""⟩,
         ⟨"s2", "Netflix", 15, "u1", "2024-02-01", ""⟩] "u1" "Netflix" = 30 := by
  refine ⟨fun s userID serviceName => rfl, by decide, by decide⟩

/-- Claim C2: delete should remove the addressed record and answer 204
when it exists, and answer 404 when it does not. The code answers 204
with the table untouched when a numeric id matches nothing (gorm reports
no error when zero rows are affected), indeed 204 for every numeric id
whatever the table holds; and a non-numeric id reaches the database as a
raw SQL condition, so the handler answers 404 and removes nothing even
when the record exists. -/
theorem deleteSubscription_wrong_statuses :
    deleteSubscription [] "7" = ([], Response.noContent 204)
    ∧ (∀ s : Store, (deleteSubscription s "7").2 = Response.noContent 204)
    ∧ deleteSubscription [⟨"abc", "Netflix", 15, "u1", "2024-01-01", ""⟩] "abc"
      = ([⟨"abc", "Netflix", 15, "u1", "2024-01-01", ""⟩],
         Response.fail 404 "Subscription not found!") := by
  have h7 : goAtoiOk "7" = true := by decide
  refine ⟨by decide, fun s => ?_, by decide⟩
  simp [deleteSubscription, dbDeleteById, h7]

/-- Claim C5: a create body that omits one of the required fields
service_name, price, user_id, start_date, or leaves it empty, is rejected
with 400 and the validation message, and nothing is stored. -/
theorem createSubscription_missing_required_field_400 :
    ∀ (s : Store) (b : SubscriptionBody),
      (b.ServiceName = none ∨ b.ServiceName = some "" ∨ b.Price = none ∨ b.Price = some 0
        ∨ b.UserID = none ∨ b.UserID = some "" ∨ b.StartDate = none ∨ b.StartDate = some "")
      → ∃ m, createSubscription s b = (s, Response.fail 400 m) := by
  intro s b h
  refine ⟨"validation failed for a required field", ?_⟩
  have hval : requiredValid (bindInto zeroSubscription b) = false := by
    unfold requiredValid bindInto zeroSubscription
    rcases h with h | h | h | h | h | h | h | h <;> simp [h]
  unfold createSubscription shouldBindJSON
  simp [hval]

/-- Witness for C5: omitting price on an otherwise complete body yields a
400 and an unchanged table. -/
theorem createSubscription_missing_required_field_400_witness :
    ∃ m, createSubscription []
        ⟨none, some "Netflix", none, some "u1", some "2024-01-01", none⟩
      = ([], Response.fail 400 m) :=
  createSubscription_missing_required_field_400 []
    ⟨none, some "Netflix", none, some "u1", some "2024-01-01", none⟩ (by decide)

/-- Claim C6: the list operation takes no input, always answers 200, and
returns every stored record as a sequence, the empty table giving the
empty sequence. -/
theorem getSubscriptions_returns_all :
    (∀ s : Store, getSubscriptions s = (s, Response.records 200 s))
    ∧ getSubscriptions [] = ([], Response.records 200 []) :=
  ⟨fun _ => rfl, rfl⟩

/-- Counterexample to claim C4: a create body with every required field
present but with the id of an already stored record answers 201 with the
bound input, yet nothing is persisted — the table keeps the old record
and does not contain the returned one. -/
theorem createSubscription_duplicate_id_not_persisted :
    createSubscription [⟨"a", "Netflix", 15, "u1", "2024-01-01", ""⟩]
        ⟨some "a", some "Hulu", some 20, some "u2", some "2024-02-01", none⟩
      = ([⟨"a", "Netflix", 15, "u1", "2024-01-01", ""⟩],
         Response.record 201 ⟨"a", "Hulu", 20, "u2", "2024-02-01", ""⟩)
    ∧ (⟨"a", "Hulu", 20, "u2", "2024-02-01", ""⟩ : Subscription)
        ∉ [⟨"a", "Netflix", 15, "u1", "2024-01-01", ""⟩] := by
  decide

/-- Claim C4 amended: a create whose body passes the required-field
validation persists the bound record and answers 201 with it when its id
collides with no stored id; when the id collides, the handler still
answers 201 with the bound record but the table is unchanged. -/
theorem createSubscription_valid_body_201 :
    ∀ (s : Store) (b : SubscriptionBody) (r : Subscription),
      shouldBindJSON zeroSubscription b = Except.ok r →
      ((s.any fun x => x.ID == r.ID) = false →
        createSubscription s b = (s ++ [r], Response.record 201 r))
      ∧ ((s.any fun x => x.ID == r.ID) = true →
        createSubscription s b = (s, Response.record 201 r)) := by
  intro s b r hb
  unfold createSubscription
  simp only [hb]
  unfold dbCreate
  constructor
  · intro hany; rw [hany]; simp
  · intro hany; rw [hany]; simp

/-- Witness for the amended C4: a fresh create is appended and echoed. -/
theorem createSubscription_valid_body_201_witness :
    createSubscription []
        ⟨some "n1", some "Netflix", some 15, some "u1", some "2024-01-01", none⟩
      = ([⟨"n1", "Netflix", 15, "u1", "2024-01-01", ""⟩],
         Response.record 201 ⟨"n1", "Netflix", 15, "u1", "2024-01-01", ""⟩) := by
  have h := (createSubscription_valid_body_201 []
      ⟨some "n1", some "Netflix", some 15, some "u1", some "2024-01-01", none⟩
      ⟨"n1", "Netflix", 15, "u1", "2024-01-01", ""⟩ rfl).1 (by decide)
  simpa using h

/-- Claim C9: the create handler inspects only the binding result: a
failed binding answers 400 with the message and an unchanged table, a
successful binding answers 201 with the bound record whatever the insert
does — on an insert error the table is unchanged and still 201 — and no
error status other than 400 is ever produced. -/
theorem createSubscription_ignores_insert_error :
    ∀ (s : Store) (b : SubscriptionBody),
      (∀ m, shouldBindJSON zeroSubscription b = Except.error m →
        createSubscription s b = (s, Response.fail 400 m))
      ∧ (∀ r, shouldBindJSON zeroSubscription b = Except.ok r →
          (createSubscription s b).2 = Response.record 201 r
          ∧ ((dbCreate s r).2 = true →
              createSubscription s b = (s, Response.record 201 r)))
      ∧ (∀ st m, (createSubscription s b).2 = Response.fail st m → st = 400) := by
  intro s b
  refine ⟨?_, ?_, ?_⟩
  · intro m hm
    unfold createSubscription
    rw [hm]
  · intro r hr
    unfold createSubscription
    simp only [hr]
    refine ⟨trivial, ?_⟩
    intro herr
    have h1 : (dbCreate s r).1 = s := by
      unfold dbCreate at herr ⊢
      cases hany : s.any (fun x => x.ID == r.ID) with
      | true => simp
      | false => rw [hany] at herr; simp at herr
    rw [h1]
  · intro st m hsm
    unfold createSubscription at hsm
    rcases hb : shouldBindJSON zeroSubscription b with m' | r'
    · rw [hb] at hsm
      simp at hsm
      exact hsm.1.symm
    · rw [hb] at hsm
      simp at hsm

/-- Witness for C9: a create whose body reuses a stored id answers 201
with the bound record while the table keeps only the old record. -/
theorem createSubscription_ignores_insert_error_witness :
    createSubscription [⟨"x9", "Prime", 9, "u9", "2024-05-01", ""⟩]
        ⟨some "x9", some "Spotify", some 13, some "u3", some "2024-06-01", none⟩
      = ([⟨"x9", "Prime", 9, "u9", "2024-05-01", ""⟩],
         Response.record 201 ⟨"x9", "Spotify", 13, "u3", "2024-06-01", ""⟩) :=
  ((createSubscription_ignores_insert_error
      [⟨"x9", "Prime", 9, "u9", "2024-05-01", ""⟩]
      ⟨some "x9", some "Spotify", some 13, some "u3", some "2024-06-01", none⟩).2.1
      ⟨"x9", "Spotify", 13, "u3", "2024-06-01", ""⟩ rfl).2 (by decide)

/-- Counterexample to claim C3: updating the existing id t3 with a body
whose ID field is the empty string answers 200 with the merged record,
but the merged record is persisted nowhere: the table is unchanged, so no
stored record reflects the new field values — db.Save of a zero primary
key takes the Create path, which fails silently on the duplicate empty
id. -/
theorem updateSubscription_200_without_store :
    updateSubscription
        [⟨"", "Spotify", 10, "u9", "2024-03-01", ""⟩,
         ⟨"t3", "Hulu", 8, "u9", "2024-04-01", ""⟩] "t3"
        ⟨some "", some "Max", some 12, some "u9", some "2024-05-01", none⟩
      = ([⟨"", "Spotify", 10, "u9", "2024-03-01", ""⟩,
          ⟨"t3", "Hulu", 8, "u9", "2024-04-01", ""⟩],
         Response.record 200 ⟨"", "Max", 12, "u9", "2024-05-01", ""⟩)
    ∧ (⟨"", "Max", 12, "u9", "2024-05-01", ""⟩ : Subscription)
        ∉ [⟨"", "Spotify", 10, "u9", "2024-03-01", ""⟩,
           ⟨"t3", "Hulu", 8, "u9", "2024-04-01", ""⟩] := by
  decide

/-- Claim C3 amended: update answers 404 when the path id is absent; when
present, the body is bound over the fetched record and the required
validators run on the merged record, with 400 and an unchanged table on
failure; on success the merged record is saved and answered with 200, and
it is then found under its id — provided the merged id is non-empty or no
empty-id row was stored, the one case where the save is silently
dropped. -/
theorem updateSubscription_merge_spec :
    (∀ (s : Store) (id : String) (b : SubscriptionBody),
      dbFirst s id = none →
      updateSubscription s id b = (s, Response.fail 404 "Subscription not found!"))
    ∧ (∀ (s : Store) (id : String) (b : SubscriptionBody) (r0 : Subscription) (m : String),
      dbFirst s id = some r0 → shouldBindJSON r0 b = Except.error m →
      updateSubscription s id b = (s, Response.fail 400 m))
    ∧ (∀ (s : Store) (id : String) (b : SubscriptionBody) (r0 r : Subscription),
      dbFirst s id = some r0 → shouldBindJSON r0 b = Except.ok r →
      updateSubscription s id b = (dbSave s r, Response.record 200 r)
      ∧ ((r.ID = "" → dbFirst s "" = none) → dbFirst (dbSave s r) r.ID = some r)) := by
  refine ⟨?_, ?_, ?_⟩
  · intro s id b h
    unfold updateSubscription
    rw [h]
  · intro s id b r0 m h hb
    unfold updateSubscription
    simp only [h, hb]
  · intro s id b r0 r h hb
    unfold updateSubscription
    simp only [h, hb]
    exact ⟨trivial, fun hpre => dbFirst_dbSave_self hpre⟩

/-- Witness for the amended C3: updating a stored record with new
service_name and price values stores and returns the merged record. -/
theorem updateSubscription_merge_spec_witness :
    updateSubscription [⟨"w3", "Netflix", 15, "u1", "2024-01-01", ""⟩] "w3"
        ⟨none, some "Disney", some 7, none, none, none⟩
      = (dbSave [⟨"w3", "Netflix", 15, "u1", "2024-01-01", ""⟩]
            ⟨"w3", "Disney", 7, "u1", "2024-01-01", ""⟩,
         Response.record 200 ⟨"w3", "Disney", 7, "u1", "2024-01-01", ""⟩)
    ∧ dbFirst (dbSave [⟨"w3", "Netflix", 15, "u1", "2024-01-01", ""⟩]
          ⟨"w3", "Disney", 7, "u1", "2024-01-01", ""⟩) "w3"
      = some ⟨"w3", "Disney", 7, "u1", "2024-01-01", ""⟩ := by
  have h := updateSubscription_merge_spec.2.2
      [⟨"w3", "Netflix", 15, "u1", "2024-01-01", ""⟩] "w3"
      ⟨none, some "Disney", some 7, none, none, none⟩
      ⟨"w3", "Netflix", 15, "u1", "2024-01-01", ""⟩
      ⟨"w3", "Disney", 7, "u1", "2024-01-01", ""⟩ (by decide) rfl
  exact ⟨h.1, h.2 (by decide)⟩

/-- Counterexample to claim C10: path id t10, body ID the empty string —
an ID differing from the path id. The handler answers 200 and indeed
leaves the row at the path id unchanged, but the write does not land on
the record with the body id either: the row with the empty id keeps its
old values and the merged record is nowhere. -/
theorem updateSubscription_redirect_lost_write :
    updateSubscription
        [⟨"", "Prime", 9, "u7", "2024-06-01", ""⟩,
         ⟨"t10", "Peacock", 6, "u7", "2024-07-01", ""⟩] "t10"
        ⟨some "", some "AppleTV", some 11, some "u7", some "2024-08-01", none⟩
      = ([⟨"", "Prime", 9, "u7", "2024-06-01", ""⟩,
          ⟨"t10", "Peacock", 6, "u7", "2024-07-01", ""⟩],
         Response.record 200 ⟨"", "AppleTV", 11, "u7", "2024-08-01", ""⟩)
    ∧ dbFirst [⟨"", "Prime", 9, "u7", "2024-06-01", ""⟩,
          ⟨"t10", "Peacock", 6, "u7", "2024-07-01", ""⟩] ""
      = some ⟨"", "Prime", 9, "u7", "2024-06-01", ""⟩
    ∧ (⟨"", "Prime", 9, "u7", "2024-06-01", ""⟩ : Subscription)
        ≠ ⟨"", "AppleTV", 11, "u7", "2024-08-01", ""⟩ := by
  decide

/-- Claim C10 amended: when the body of an update on an existing path id
carries a non-empty ID different from the path id, the handler saves the
merged record under the body id: the row at the path id keeps its old
values, the row under the body id becomes the merged record (overwritten
or created), and the handler answers 200 with the merged record. -/
theorem updateSubscription_writes_body_id :
    ∀ (s : Store) (pid : String) (b : SubscriptionBody) (r0 r : Subscription),
      dbFirst s pid = some r0 → shouldBindJSON r0 b = Except.ok r →
      r.ID ≠ pid → r.ID ≠ "" →
      (updateSubscription s pid b).1 = dbSave s r
      ∧ dbFirst (dbSave s r) pid = dbFirst s pid
      ∧ dbFirst (dbSave s r) r.ID = some r
      ∧ (updateSubscription s pid b).2 = Response.record 200 r := by
  intro s pid b r0 r h hb hne hne2
  have h1 : updateSubscription s pid b = (dbSave s r, Response.record 200 r) := by
    unfold updateSubscription
    simp only [h, hb]
  exact ⟨by rw [h1], dbFirst_dbSave_other hne,
    dbFirst_dbSave_self (fun hc => absurd hc hne2), by rw [h1]⟩

/-- Witness for the amended C10: an update on the stored id p with body
ID q creates the row q with the merged values and leaves the row p as it
was. -/
theorem updateSubscription_writes_body_id_witness :
    (updateSubscription [⟨"p", "Old", 1, "u", "2024-01-01", ""⟩] "p"
        ⟨some "q", some "New", some 2, some "u", some "2024-01-01", none⟩).1
      = dbSave [⟨"p", "Old", 1, "u", "2024-01-01", ""⟩]
          ⟨"q", "New", 2, "u", "2024-01-01", ""⟩
    ∧ dbFirst (dbSave [⟨"p", "Old", 1, "u", "2024-01-01", ""⟩]
          ⟨"q", "New", 2, "u", "2024-01-01", ""⟩) "p"
      = dbFirst [⟨"p", "Old", 1, "u", "2024-01-01", ""⟩] "p"
    ∧ dbFirst (dbSave [⟨"p", "Old", 1, "u", "2024-01-01", ""⟩]
          ⟨"q", "New", 2, "u", "2024-01-01", ""⟩) "q"
      = some ⟨"q", "New", 2, "u", "2024-01-01", ""⟩
    ∧ (updateSubscription [⟨"p", "Old", 1, "u", "2024-01-01", ""⟩] "p"
        ⟨some "q", some "New", some 2, some "u", some "2024-01-01", none⟩).2
      = Response.record 200 ⟨"q", "New", 2, "u", "2024-01-01", ""⟩ :=
  updateSubscription_writes_body_id
    [⟨"p", "Old", 1, "u", "2024-01-01", ""⟩] "p"
    ⟨some "q", some "New", some 2, some "u", some "2024-01-01", none⟩
    ⟨"p", "Old", 1, "u", "2024-01-01", ""⟩
    ⟨"q", "New", 2, "u", "2024-01-01", ""⟩
    (by decide) rfl (by decide) (by decide)

/-- Counterexample to claim C7: an environment where only the .env file
is missing — DATABASE_URL is set, the database would connect and the
migration would succeed — still terminates the process fatally at
godotenv.Load, so the absence of the configuration file does prevent
startup. -/
theorem runMain_fatal_when_dotenv_absent :
    runMain
        ⟨Except.error "open .env: no such file or directory",
         fun k => if k == "DATABASE_URL" then "postgres://db" else "",
         fun dsn => if dsn == "postgres://db" then Except.ok () else Except.error "bad dsn",
         Except.ok ()⟩
      = MainResult.fatal "Error loading .env file: open .env: no such file or directory"
    ∧ (fun dsn => if dsn == "postgres://db" then Except.ok () else Except.error "bad dsn")
        ((fun k => if k == "DATABASE_URL" then "postgres://db" else "") "DATABASE_URL")
      = Except.ok () := by
  constructor
  · rfl
  · simp

/-- Claim C7 amended: the connection string is read from the process
environment under DATABASE_URL; the configuration file is required, its
absence being a fatal load failure; main reaches the serving state
exactly when the configuration loads, the database connects on the
environment connection string, and the migration succeeds — and
otherwise it ends fatally, before any request is served, with no
retry. -/
theorem runMain_serving_iff :
    ∀ env : StartupEnv,
      (runMain env = MainResult.serving ↔
        env.dotenvLoad = Except.ok ()
        ∧ env.gormOpen (env.getenv "DATABASE_URL") = Except.ok ()
        ∧ env.autoMigrate = Except.ok ())
      ∧ (runMain env = MainResult.serving ∨ ∃ m, runMain env = MainResult.fatal m) := by
  intro env
  unfold runMain
  rcases hd : env.dotenvLoad with e | ⟨⟩ <;>
    rcases hg : env.gormOpen (env.getenv "DATABASE_URL") with e2 | ⟨⟩ <;>
      rcases hm : env.autoMigrate with e3 | ⟨⟩ <;>
        simp [hd, hg, hm]

/-- Counterexample to claim C8: a create without an id does not receive a
generated unique identifier — the record is stored with the empty string
as its id, and a second identical create stores nothing at all while
still answering 201 with the very same empty id. -/
theorem createSubscription_no_generated_id :
    createSubscription []
        ⟨none, some "Netflix", some 15, some "u1", some "2024-01-01", none⟩
      = ([⟨"", "Netflix", 15, "u1", "2024-01-01", ""⟩],
         Response.record 201 ⟨"", "Netflix", 15, "u1", "2024-01-01", ""⟩)
    ∧ createSubscription [⟨"", "Netflix", 15, "u1", "2024-01-01", ""⟩]
        ⟨none, some "Netflix", some 15, some "u1", some "2024-01-01", none⟩
      = ([⟨"", "Netflix", 15, "u1", "2024-01-01", ""⟩],
         Response.record 201 ⟨"", "Netflix", 15, "u1", "2024-01-01", ""⟩) := by
  decide

/-- Claim C8 amended: the id of a created record is exactly the id the
client sent, the empty string when the body carries none — the service
never generates one — and every operation keeps the stored ids unique,
the clashing inserts being silently rejected by the primary key. -/
theorem subscription_id_invariants :
    (∀ (b : SubscriptionBody) (r : Subscription),
      shouldBindJSON zeroSubscription b = Except.ok r → r.ID = b.ID.getD "")
    ∧ (∀ (s : Store) (b : SubscriptionBody),
        idsUnique s → idsUnique (createSubscription s b).1)
    ∧ (∀ (s : Store) (id : String) (b : SubscriptionBody),
        idsUnique s → idsUnique (updateSubscription s id b).1)
    ∧ (∀ (s : Store) (id : String), idsUnique s → idsUnique (deleteSubscription s id).1)
    ∧ (∀ (s : Store) (id : String), idsUnique s → idsUnique (getSubscription s id).1)
    ∧ (∀ s : Store, idsUnique s → idsUnique (getSubscriptions s).1) := by
  refine ⟨?_, ?_, ?_, ?_, ?_, ?_⟩
  · intro b r hb
    unfold shouldBindJSON at hb
    by_cases hv : requiredValid (bindInto zeroSubscription b) = true
    · rw [if_pos hv] at hb
      cases hb
      rfl
    · rw [if_neg hv] at hb
      simp at hb
  · intro s b hu
    unfold createSubscription
    rcases hb : shouldBindJSON zeroSubscription b with m | r
    · exact hu
    · exact idsUnique_dbCreate r hu
  · intro s id b hu
    unfold updateSubscription
    rcases h : dbFirst s id with _ | r0
    · exact hu
    · show idsUnique (match shouldBindJSON r0 b with
        | Except.error m => (s, Response.fail 400 m)
        | Except.ok r => (dbSave s r, Response.record 200 r)).1
      rcases hb : shouldBindJSON r0 b with m | r
      · exact hu
      · exact idsUnique_dbSave r hu
  · intro s id hu
    unfold deleteSubscription dbDeleteById
    cases hA : goAtoiOk id with
    | true => simp [hA]; exact idsUnique_filter _ hu
    | false => simp [hA]; exact hu
  · intro s id hu
    unfold getSubscription
    rcases h : dbFirst s id with _ | r <;> exact hu
  · intro s hu
    exact hu

/-- Witness for the amended C8: inserting a record with a fresh id keeps
the id column duplicate-free. -/
theorem subscription_id_invariants_witness :
    idsUnique (createSubscription [⟨"k8", "Prime", 9, "u8", "2024-09-01", ""⟩]
      ⟨some "k9", some "Hulu", some 4, some "u8", some "2024-09-02", none⟩).1 :=
  subscription_id_invariants.2.1 [⟨"k8", "Prime", 9, "u8", "2024-09-01", ""⟩]
    ⟨some "k9", some "Hulu", some 4, some "u8", some "2024-09-02", none⟩ (by decide)

end SubSvc
